import Mathlib

/-
Verification development for the Claims Image Labeler v2 repository.

The repository's analysis path (analyzeImage lambda_handler) takes the raw
text returned by the model inference call, runs json.loads on it, reads
analysis['verdict'] and analysis['confidence'] while logging and emitting
metrics, and returns json.dumps(analysis) with status 200.  The presign path
(generatePresignedUrl lambda_handler) rejects any declared fileType that does
not start with "image/".  The frontend variant (frontend_backup/src/App.js)
mocks the analysis with a constant record.

This file embeds those code paths shallowly: JSON documents become an
inductive value type, json.loads becomes a fuel-based recursive-descent
reader over the character list (fuel is generous and only bounds nesting
depth, which is itself bounded by the input length), Python exceptions
(json.JSONDecodeError, KeyError, TypeError) become an explicit error type,
and the external collaborators (S3, Bedrock, CloudWatch, the Lambda context,
uuid) are parameters, since their behaviour is not code of this repository.
-/

namespace ClaimsLabeler

/-- JSON values as produced by Python's json.loads: null, booleans, numbers
(modelled as exact rationals), strings, arrays, and objects.  Python returns
objects as dicts; here an object carries its key/value pairs in insertion
order with unique keys, matching dict semantics via `buildDict` below. -/
inductive Json where
  | null : Json
  | bool (b : Bool) : Json
  | num (q : Rat) : Json
  | str (s : String) : Json
  | arr (elems : List Json) : Json
  | obj (members : List (String × Json)) : Json

/-- Association-list lookup, the embedding of a Python dict subscript
`d[k]` returning `some v` when the key is present. -/
def lookupJson : List (String × Json) → String → Option Json
  | [], _ => none
  | (k, v) :: rest, key => if k = key then some v else lookupJson rest key

/-- Insertion with dict semantics: overwriting an existing key keeps its
position and replaces its value; a new key is appended at the end. -/
def insertJson : List (String × Json) → String → Json → List (String × Json)
  | [], k, v => [(k, v)]
  | (k0, v0) :: rest, k, v =>
    if k0 = k then (k0, v) :: rest else (k0, v0) :: insertJson rest k v

/-- Collapse the raw member list of a parsed object into a dict: later
duplicate keys overwrite earlier ones, as Python's json.loads does. -/
def buildDict (ms : List (String × Json)) : List (String × Json) :=
  ms.foldl (fun acc kv => insertJson acc kv.1 kv.2) []

/-- Field access on a JSON value when it is an object. -/
def Json.lookup : Json → String → Option Json
  | .obj ms, k => lookupJson ms k
  | _, _ => none

/-- Opening brace character, written via its code point. -/
def lbrace : Char := Char.ofNat 123

/-- Closing brace character, written via its code point. -/
def rbrace : Char := Char.ofNat 125

/-- JSON whitespace: space, tab, line feed, carriage return. -/
def isJsonWs (c : Char) : Bool :=
  c = ' ' || c = '\t' || c = '\n' || c = Char.ofNat 13

/-- Drop leading JSON whitespace. -/
def skipWs : List Char → List Char
  | [] => []
  | c :: cs => if isJsonWs c then skipWs cs else c :: cs

/-- Split a leading run of decimal digits off a character list. -/
def takeDigits : List Char → List Char × List Char
  | [] => ([], [])
  | c :: cs =>
    if c.isDigit then
      let p := takeDigits cs
      (c :: p.1, p.2)
    else ([], c :: cs)

/-- Decimal digits to a natural number, most significant first. -/
def digitsToNat (acc : Nat) : List Char → Nat
  | [] => acc
  | c :: cs => digitsToNat (acc * 10 + (c.toNat - 48)) cs

/-- Value of one hexadecimal digit. -/
def hexDigitVal (c : Char) : Option Nat :=
  if c.isDigit then some (c.toNat - 48)
  else if 'a' ≤ c ∧ c ≤ 'f' then some (c.toNat - 87)
  else if 'A' ≤ c ∧ c ≤ 'F' then some (c.toNat - 55)
  else none

/-- Body of a JSON string after the opening quote, handling the escape
sequences json.loads accepts; control characters are rejected as in
Python's strict mode.  Returns the decoded string and the remaining input. -/
def readStringBody (acc : List Char) : List Char → Option (String × List Char)
  | [] => none
  | '\\' :: '"' :: r => readStringBody ('"' :: acc) r
  | '\\' :: '\\' :: r => readStringBody ('\\' :: acc) r
  | '\\' :: '/' :: r => readStringBody ('/' :: acc) r
  | '\\' :: 'b' :: r => readStringBody (Char.ofNat 8 :: acc) r
  | '\\' :: 'f' :: r => readStringBody (Char.ofNat 12 :: acc) r
  | '\\' :: 'n' :: r => readStringBody ('\n' :: acc) r
  | '\\' :: 'r' :: r => readStringBody (Char.ofNat 13 :: acc) r
  | '\\' :: 't' :: r => readStringBody ('\t' :: acc) r
  | '\\' :: 'u' :: h1 :: h2 :: h3 :: h4 :: r =>
    match hexDigitVal h1, hexDigitVal h2, hexDigitVal h3, hexDigitVal h4 with
    | some a, some b, some c, some d =>
      readStringBody (Char.ofNat (((a * 16 + b) * 16 + c) * 16 + d) :: acc) r
    | _, _, _, _ => none
  | '\\' :: _ => none
  | '"' :: rest => some (String.mk acc.reverse, rest)
  | c :: rest => if c.toNat < 32 then none else readStringBody (c :: acc) rest

/-- Exponent part of a JSON number, after the e or E. -/
def readExponent (cs : List Char) : Option (Int × List Char) :=
  let sp : Int × List Char :=
    match cs with
    | '+' :: r => (1, r)
    | '-' :: r => (-1, r)
    | r => (1, r)
  match takeDigits sp.2 with
  | ([], _) => none
  | (ds, rest) => some (sp.1 * (digitsToNat 0 ds : Int), rest)

/-- Exact rational value of a decimal literal: sign, integer part, fraction
digits as a numerator with k decimal places, and a base-ten exponent.  Built
with `mkRat` so the value is in lowest terms, as a single number. -/
def mkJsonNum (neg : Bool) (ip fracN k : Nat) (ex : Int) : Rat :=
  let m : Nat := ip * 10 ^ k + fracN
  let sm : Int := if neg then -(m : Int) else (m : Int)
  match ex with
  | .ofNat e => mkRat (sm * ((10 ^ e : Nat) : Int)) (10 ^ k)
  | .negSucc e => mkRat sm (10 ^ k * 10 ^ (e + 1))

/-- JSON number per the json.loads grammar: optional minus, integer part
with no leading zero, optional fraction, optional exponent.  The value is
exact as a rational.  (Python's json additionally accepts the non-standard
NaN and Infinity literals; they do not occur in this development.) -/
def readNumber (cs : List Char) : Option (Rat × List Char) :=
  let sp : Bool × List Char :=
    match cs with
    | '-' :: r => (true, r)
    | r => (false, r)
  match takeDigits sp.2 with
  | ([], _) => none
  | (ids, cs2) =>
    if 1 < ids.length ∧ ids.headD '0' = '0' then none
    else
      let ip : Nat := digitsToNat 0 ids
      let frac : Option ((Nat × Nat) × List Char) :=
        match cs2 with
        | '.' :: r =>
          match takeDigits r with
          | ([], _) => none
          | (fds, r2) => some ((digitsToNat 0 fds, fds.length), r2)
        | r => some ((0, 0), r)
      match frac with
      | none => none
      | some (fpair, cs3) =>
        let expo : Option (Int × List Char) :=
          match cs3 with
          | 'e' :: r => readExponent r
          | 'E' :: r => readExponent r
          | r => some (0, r)
        match expo with
        | none => none
        | some (ex, cs4) =>
          some (mkJsonNum sp.1 ip fpair.1 fpair.2 ex, cs4)

/-- Request selector for the single recursive JSON reader: parse one value,
parse the remaining elements of an array, or parse the remaining members of
an object. -/
inductive PIn where
  | pv (cs : List Char) : PIn
  | pe (cs : List Char) : PIn
  | pm (cs : List Char) : PIn

/-- Result of the recursive JSON reader, tagged like `PIn`. -/
inductive POut where
  | pv (j : Json) (rest : List Char) : POut
  | pe (es : List Json) (rest : List Char) : POut
  | pm (ms : List (String × Json)) (rest : List Char) : POut

/-- Recursive-descent JSON reader.  Fuel only bounds recursion depth; every
recursive call follows consumed input, so the generous fuel chosen in
`jsonLoads` never runs out on real input.  The three request kinds are kept
in one function so the recursion is structural on the fuel and therefore
evaluates inside the kernel. -/
def parseCore : Nat → PIn → Option POut
  | 0, _ => none
  | n + 1, .pv cs =>
    match skipWs cs with
    | [] => none
    | c :: rest =>
      if c = lbrace then
        match skipWs rest with
        | [] => none
        | c2 :: r2 =>
          if c2 = rbrace then some (.pv (.obj []) r2)
          else
            match parseCore n (.pm (c2 :: r2)) with
            | some (.pm ms r) => some (.pv (.obj (buildDict ms)) r)
            | _ => none
      else if c = '[' then
        match skipWs rest with
        | ']' :: r2 => some (.pv (.arr []) r2)
        | r1 =>
          match parseCore n (.pe r1) with
          | some (.pe es r) => some (.pv (.arr es) r)
          | _ => none
      else
        match c :: rest with
        | 'n' :: 'u' :: 'l' :: 'l' :: r => some (.pv .null r)
        | 't' :: 'r' :: 'u' :: 'e' :: r => some (.pv (.bool true) r)
        | 'f' :: 'a' :: 'l' :: 's' :: 'e' :: r => some (.pv (.bool false) r)
        | '"' :: r =>
          match readStringBody [] r with
          | some (s, r2) => some (.pv (.str s) r2)
          | none => none
        | cs2 =>
          match readNumber cs2 with
          | some (q, r2) => some (.pv (.num q) r2)
          | none => none
  | n + 1, .pe cs =>
    match parseCore n (.pv cs) with
    | some (.pv j rest) =>
      match skipWs rest with
      | ',' :: r2 =>
        match parseCore n (.pe r2) with
        | some (.pe es r3) => some (.pe (j :: es) r3)
        | _ => none
      | ']' :: r2 => some (.pe [j] r2)
      | _ => none
    | _ => none
  | n + 1, .pm cs =>
    match skipWs cs with
    | '"' :: r1 =>
      match readStringBody [] r1 with
      | some (k, r2) =>
        match skipWs r2 with
        | ':' :: r3 =>
          match parseCore n (.pv r3) with
          | some (.pv v r4) =>
            match skipWs r4 with
            | [] => none
            | c5 :: r5 =>
              if c5 = ',' then
                match parseCore n (.pm r5) with
                | some (.pm ms r6) => some (.pm ((k, v) :: ms) r6)
                | _ => none
              else if c5 = rbrace then some (.pm [(k, v)] r5)
              else none
          | _ => none
        | _ => none
      | none => none
    | _ => none

/-- Embedding of Python's json.loads as used by the analyzeImage handler:
the whole input, up to surrounding whitespace, must be one JSON document;
trailing data is rejected ("Extra data"), and a failure models the
json.JSONDecodeError exception as `none`. -/
def jsonLoads (s : String) : Option Json :=
  match parseCore (4 * s.length + 8) (.pv s.data) with
  | some (.pv j rest) => if skipWs rest = [] then some j else none
  | _ => none

/-- Character-list core of the prefix test below. -/
def beginsWithAux : List Char → List Char → Bool
  | _, [] => true
  | [], _ :: _ => false
  | c :: cs, p :: ps => c = p && beginsWithAux cs ps

/-- Embedding of Python's str.startswith(pat): pat is a prefix of s. -/
def strBeginsWith (s pat : String) : Bool :=
  beginsWithAux s.data pat.data

/-- Removal of leading and trailing whitespace from a string, used by the
spec's "non-empty after trimming" condition on hints. -/
def strTrim (s : String) : String :=
  String.mk (((s.data.dropWhile Char.isWhitespace).reverse.dropWhile
    Char.isWhitespace).reverse)

/-- Python exceptions that the analyzeImage lambda_handler can raise while
turning the raw model text into its response: json.loads raising
json.JSONDecodeError, a dict subscript raising KeyError, and subscripting a
non-dict value with a string raising TypeError.  The handler has no
try/except, so any of these aborts the invocation (the Lambda errors out)
and no response body is produced. -/
inductive PyFailure where
  | jsonDecodeError : PyFailure
  | keyError (key : String) : PyFailure
  | typeError : PyFailure
deriving DecidableEq

/-- Embedding of the analyzeImage lambda_handler from the point where the
model's raw text has been extracted (ai_response) to the returned response
body, per src/unnamed/part_002 lines 242-288:

  analysis = json.loads(ai_response)            -- may raise JSONDecodeError
  print(json.dumps({..., 'verdict': analysis['verdict'],
                    'confidence': analysis['confidence']}))
                                                -- KeyError / TypeError here
  cloudwatch.put_metric_data(... analysis['verdict'] ... analysis['confidence'] ...)
  return {'statusCode': 200, 'body': json.dumps(analysis)}

The S3 fetch, the Bedrock call, the Lambda context and the metric sink are
external collaborators and are not part of this transformation; json.dumps
of a parsed value round-trips, so the response body is represented by the
JSON value itself.  Note that the parsed value is returned verbatim: no
field of `analysis` is validated, defaulted, clamped, or truncated, and
`analysis['hints']` is never read at all. -/
def analyzeNormalize (raw : String) : Except PyFailure Json :=
  match jsonLoads raw with
  | none => .error .jsonDecodeError
  | some a =>
    match a with
    | .obj ms =>
      match lookupJson ms "verdict" with
      | none => .error (.keyError "verdict")
      | some _ =>
        match lookupJson ms "confidence" with
        | none => .error (.keyError "confidence")
        | some _ => .ok (.obj ms)
    | _ => .error .typeError

/-- Spec conformance of a Verdict record, stated from the specification's
data-model contract (spec sections 3 and 8) solely in order to express the
claims about it: the verdict field is one of the three enum literals, the
confidence field is a number in [0, 1], and the hints field is an array of
at most six strings, each non-empty after trimming.  This predicate is the
spec's wording, deliberately not taken from the repository code, which
enforces no such contract. -/
def verdictRecordOk (j : Json) : Bool :=
  match j with
  | .obj ms =>
    (match lookupJson ms "verdict" with
     | some (.str v) => ["AI_GENERATED", "LIKELY_REAL", "INCONCLUSIVE"].contains v
     | _ => false) &&
    (match lookupJson ms "confidence" with
     | some (.num q) => decide (0 ≤ q) && decide (q ≤ 1)
     | _ => false) &&
    (match lookupJson ms "hints" with
     | some (.arr hs) =>
       decide (hs.length ≤ 6) &&
       hs.all (fun h => match h with
                        | .str s => !(strTrim s).data.isEmpty
                        | _ => false)
     | _ => false)
  | _ => false

/-- Request body of POST /presign. -/
structure PresignRequest where
  fileName : String
  fileType : String

/-- Response of the generatePresignedUrl lambda_handler: either the 200
body with url, key and bucket, or the error_response(400, ...) branch. -/
inductive PresignResult where
  | ok (url : String) (key : String) (bucket : String) : PresignResult
  | clientError (status : Nat) (message : String) : PresignResult
deriving DecidableEq

/-- Embedding of the generatePresignedUrl lambda_handler
(src/unnamed/part_002 lines 100-131).  The uuid drawn per request and the
S3 presigner are external, so they enter as parameters: `uuidStr` stands
for str(uuid.uuid4()) and `presign bucket key contentType` for
s3_client.generate_presigned_url('put_object', ...).  The handler rejects
any declared fileType that does not start with "image/" via
error_response(400, 'Invalid file type'); otherwise it builds the object
key and returns the presigned url, key and bucket. -/
def generatePresignedUrl (uuidStr bucketName : String)
    (presign : String → String → String → String)
    (req : PresignRequest) : PresignResult :=
  if strBeginsWith req.fileType "image/" = false then
    .clientError 400 "Invalid file type"
  else
    let key := "uploads/" ++ uuidStr ++ "-" ++ req.fileName
    .ok (presign bucketName key req.fileType) key bucketName

/-- Component state of the frontend variant's App component
(src/frontend/frontend_backup/src/App.js): the selected file (opaque,
identified by name), the isUploading flag, the result record and the error
message. -/
structure AppState where
  file : Option String
  isUploading : Bool
  result : Option Json
  error : String

/-- Record returned by mockAnalyze in the frontend variant: a summary
string plus exactly three hint strings; it has no verdict and no confidence
field.  mockAnalyze takes no input and always resolves to this object. -/
def mockAnalyzeResult : Json :=
  .obj [("summary", .str "No anomalies detected (mock)."),
        ("hints", .arr [.str "Lighting consistent.",
                        .str "No texture repetition.",
                        .str "No tampering found."])]

/-- Embedding of handleUpload from the frontend variant:

  try \x7b
    if (!file) return;
    setUploading(true); setError("");
    const analysis = await mockAnalyze();
    setResult(analysis);
  \x7d catch (e) \x7b setError(...); \x7d
  finally \x7b setUploading(false); \x7d

The early return when no file is selected sits inside the try block, so the
finally clause still runs setUploading(false) on that path.  mockAnalyze
cannot throw, so the catch branch is dead code and the with-file path ends
in result set, error cleared, and isUploading back to false. -/
def handleUpload (s : AppState) : AppState :=
  match s.file with
  | none => { s with isUploading := false }
  | some _ =>
    let s1 := { s with isUploading := true, error := "" }
    let s2 := { s1 with result := some mockAnalyzeResult }
    { s2 with isUploading := false }

/-- Raw model output with no JSON in it, the spec's hard-failure example. -/
def rawNoJson : String := "I cannot analyze this image."

/-- Raw model output wrapping a well-formed JSON object in prose, the
spec's extraction-from-prose example. -/
def rawProseWrapped : String :=
  "Sure, here you go:\n\x7b\"verdict\":\"AI_GENERATED\",\"confidence\":0.92,\"hints\":[\"edge halos\"]\x7d\nLet me know if you need more."

/-- The JSON object embedded in `rawProseWrapped`, on its own. -/
def rawJsonOnly : String :=
  "\x7b\"verdict\":\"AI_GENERATED\",\"confidence\":0.92,\"hints\":[\"edge halos\"]\x7d"

/-- Parsed form of `rawJsonOnly`. -/
def objJsonOnly : Json :=
  .obj [("verdict", .str "AI_GENERATED"), ("confidence", .num (mkRat 92 100)),
        ("hints", .arr [.str "edge halos"])]

/-- The spec's defaulting example: a parseable object with no verdict and
no hints field. -/
def rawMissingVerdict : String := "\x7b\"confidence\": 1.7\x7d"

/-- Parseable object whose verdict value is not one of the three enum
literals. -/
def rawUnrecognizedVerdict : String :=
  "\x7b\"verdict\":\"BANANA\",\"confidence\":1\x7d"

/-- Member list of the parsed form of `rawUnrecognizedVerdict`. -/
def msUnrecognizedVerdict : List (String × Json) :=
  [("verdict", .str "BANANA"), ("confidence", .num 1)]

/-- The spec's clamping example: confidence -0.3, below the interval. -/
def rawNegativeConfidence : String :=
  "\x7b\"verdict\":\"LIKELY_REAL\",\"confidence\": -0.3,\"hints\":[\"a\"]\x7d"

/-- Member list of the parsed form of `rawNegativeConfidence`. -/
def msNegativeConfidence : List (String × Json) :=
  [("verdict", .str "LIKELY_REAL"), ("confidence", .num (mkRat (-3) 10)),
   ("hints", .arr [.str "a"])]

/-- Ten hint strings, in order. -/
def tenHintsList : List Json :=
  [.str "h1", .str "h2", .str "h3", .str "h4", .str "h5",
   .str "h6", .str "h7", .str "h8", .str "h9", .str "h10"]

/-- The spec's truncation example shape: a parseable object whose hints
array has ten entries. -/
def rawTenHints : String :=
  "\x7b\"verdict\":\"AI_GENERATED\",\"confidence\":0.5,\"hints\":[\"h1\",\"h2\",\"h3\",\"h4\",\"h5\",\"h6\",\"h7\",\"h8\",\"h9\",\"h10\"]\x7d"

/-- Member list of the parsed form of `rawTenHints`. -/
def msTenHints : List (String × Json) :=
  [("verdict", .str "AI_GENERATED"), ("confidence", .num (mkRat 5 10)),
   ("hints", .arr tenHintsList)]

/-- Raw model output that parses but breaks all three Verdict constraints:
out-of-enum verdict, confidence 5 outside [0, 1], and a hint that is empty
after trimming. -/
def rawContractBreaking : String :=
  "\x7b\"verdict\":\"DEFINITELY_FAKE\",\"confidence\":5,\"hints\":[\"  \"]\x7d"

/-- Parsed form of `rawContractBreaking`. -/
def objContractBreaking : Json :=
  .obj [("verdict", .str "DEFINITELY_FAKE"), ("confidence", .num 5),
        ("hints", .arr [.str "  "])]

/-- Helper: when the raw text parses to an object that has both a verdict
and a confidence key, the analyzeImage handler returns that object verbatim
as the response body. -/
theorem analyzeNormalize_obj_ok (raw : String) (ms : List (String × Json))
    (hp : jsonLoads raw = some (.obj ms))
    (hv : (lookupJson ms "verdict").isSome = true)
    (hc : (lookupJson ms "confidence").isSome = true) :
    analyzeNormalize raw = .ok (.obj ms) := by
  cases h1 : lookupJson ms "verdict" with
  | none => simp [h1] at hv
  | some v =>
    cases h2 : lookupJson ms "confidence" with
    | none => simp [h2] at hc
    | some c => simp [analyzeNormalize, hp, h1, h2]

/-- Claim C1, counterexample: the raw output `rawContractBreaking` parses,
the handler produces its record for the client, and that record violates
all three Verdict field constraints (out-of-enum verdict, confidence 5,
a hint that is blank after trimming), so the claimed invariant fails. -/
theorem analyze_output_violates_verdict_contract :
    analyzeNormalize rawContractBreaking = .ok objContractBreaking ∧
    verdictRecordOk objContractBreaking = false :=
  ⟨rfl, rfl⟩

/-- Claim C1 as amended: whenever the analyze operation produces a record
for the client, that record is the JSON object parsed from the raw model
output, passed through verbatim with no validation; the three field
constraints therefore hold only when the raw output itself satisfies
them. -/
theorem analyze_output_is_parsed_object_verbatim (raw : String) (j : Json)
    (h : analyzeNormalize raw = .ok j) : jsonLoads raw = some j := by
  unfold analyzeNormalize at h
  cases hp : jsonLoads raw with
  | none => simp [hp] at h
  | some a =>
    rw [hp] at h
    cases a with
    | null => simp at h
    | bool b => simp at h
    | num q => simp at h
    | str s => simp at h
    | arr es => simp at h
    | obj ms =>
      cases h1 : lookupJson ms "verdict" with
      | none => simp [h1] at h
      | some v =>
        cases h2 : lookupJson ms "confidence" with
        | none => simp [h1, h2] at h
        | some c =>
          simp [h1, h2] at h
          rw [h]

/-- Claim C1 witness: the amended pass-through theorem applied at the
contract-breaking input. -/
theorem analyze_output_is_parsed_object_verbatim_witness :
    jsonLoads rawContractBreaking = some objContractBreaking :=
  analyze_output_is_parsed_object_verbatim rawContractBreaking
    objContractBreaking rfl

/-- Claim C2: the input "I cannot analyze this image." does not parse, and
on every raw text rejected by json.loads the analyzeImage handler yields
the propagated parse failure (the uncaught json.JSONDecodeError), never a
default Verdict record. -/
theorem parse_failure_propagates_no_default_verdict :
    jsonLoads rawNoJson = none ∧
    ∀ raw : String, jsonLoads raw = none →
      analyzeNormalize raw = .error PyFailure.jsonDecodeError :=
  ⟨rfl, fun raw h => by unfold analyzeNormalize; rw [h]⟩

/-- Claim C2 witness: the propagation theorem applied at the spec's
hard-failure input. -/
theorem parse_failure_propagates_no_default_verdict_witness :
    analyzeNormalize rawNoJson = .error PyFailure.jsonDecodeError :=
  parse_failure_propagates_no_default_verdict.2 rawNoJson rfl

/-- Claim C3, counterexample: the spec's extraction-from-prose input does
not normalize to a record; json.loads rejects it and the handler errors. -/
theorem prose_wrapped_output_fails_to_parse :
    analyzeNormalize rawProseWrapped = .error PyFailure.jsonDecodeError :=
  rfl

/-- Claim C3 as amended: the code parses the raw text only when the whole
text (up to surrounding whitespace) is one JSON document — there is no scan
for an embedded object — so the prose-wrapped input fails, while the
embedded JSON object taken on its own normalizes to the stated record. -/
theorem whole_string_json_parses_prose_does_not :
    jsonLoads rawProseWrapped = none ∧
    analyzeNormalize rawJsonOnly = .ok objJsonOnly :=
  ⟨rfl, rfl⟩

/-- Claim C4, counterexample: the parseable input with no verdict field is
not defaulted to INCONCLUSIVE; the handler raises KeyError on 'verdict'
while building its log record, so no record is produced at all. -/
theorem missing_verdict_input_errors :
    analyzeNormalize rawMissingVerdict = .error (PyFailure.keyError "verdict") :=
  rfl

/-- Claim C4 as amended: a parseable object with the verdict field missing
makes the handler fail with KeyError on 'verdict' rather than substituting
INCONCLUSIVE, and a present but unrecognized verdict value is passed
through to the client unchanged rather than being replaced. -/
theorem verdict_not_defaulted (raw : String) (ms : List (String × Json))
    (hp : jsonLoads raw = some (.obj ms)) :
    (lookupJson ms "verdict" = none →
      analyzeNormalize raw = .error (PyFailure.keyError "verdict")) ∧
    (∀ v, lookupJson ms "verdict" = some v →
      (lookupJson ms "confidence").isSome = true →
      ∃ out, analyzeNormalize raw = .ok out ∧
        Json.lookup out "verdict" = some v) := by
  constructor
  · intro h1
    simp [analyzeNormalize, hp, h1]
  · intro v h1 hc
    refine ⟨.obj ms, analyzeNormalize_obj_ok raw ms hp (by simp [h1]) hc, ?_⟩
    simpa [Json.lookup] using h1

/-- Claim C4 witness: at the input whose verdict is the unrecognized
literal BANANA, the produced record still carries BANANA. -/
theorem verdict_not_defaulted_witness :
    ∃ out, analyzeNormalize rawUnrecognizedVerdict = .ok out ∧
      Json.lookup out "verdict" = some (.str "BANANA") :=
  (verdict_not_defaulted rawUnrecognizedVerdict msUnrecognizedVerdict rfl).2
    (.str "BANANA") rfl rfl

/-- Claim C5, counterexample: the spec's clamping input normalizes to a
record whose confidence is still -3/10, not 0. -/
theorem negative_confidence_passed_through :
    analyzeNormalize rawNegativeConfidence = .ok (.obj msNegativeConfidence) ∧
    Json.lookup (.obj msNegativeConfidence) "confidence" =
      some (.num (mkRat (-3) 10)) ∧
    mkRat (-3) 10 ≠ (0 : Rat) :=
  ⟨rfl, rfl, by decide⟩

/-- Claim C5 as amended: the confidence value of a parseable object is
passed through unchanged — no clamping to [0, 1] and no defaulting — and a
missing confidence field makes the handler fail with KeyError on
'confidence' instead of defaulting to 0.0. -/
theorem confidence_not_clamped_or_defaulted (raw : String)
    (ms : List (String × Json))
    (hp : jsonLoads raw = some (.obj ms))
    (hv : (lookupJson ms "verdict").isSome = true) :
    (lookupJson ms "confidence" = none →
      analyzeNormalize raw = .error (PyFailure.keyError "confidence")) ∧
    (∀ c, lookupJson ms "confidence" = some c →
      ∃ out, analyzeNormalize raw = .ok out ∧
        Json.lookup out "confidence" = some c) := by
  constructor
  · intro h2
    cases h1 : lookupJson ms "verdict" with
    | none => simp [h1] at hv
    | some v => simp [analyzeNormalize, hp, h1, h2]
  · intro c h2
    refine ⟨.obj ms, analyzeNormalize_obj_ok raw ms hp hv (by simp [h2]), ?_⟩
    simpa [Json.lookup] using h2

/-- Claim C5 witness: the pass-through applied at the clamping example,
showing the out-of-range confidence -3/10 reaching the output record. -/
theorem confidence_not_clamped_or_defaulted_witness :
    ∃ out, analyzeNormalize rawNegativeConfidence = .ok out ∧
      Json.lookup out "confidence" = some (.num (mkRat (-3) 10)) :=
  (confidence_not_clamped_or_defaulted rawNegativeConfidence
    msNegativeConfidence rfl rfl).2 (.num (mkRat (-3) 10)) rfl

/-- Claim C6, counterexample: a hints array of ten entries reaches the
client record with all ten entries in order; nothing is truncated to six. -/
theorem ten_hints_not_truncated :
    analyzeNormalize rawTenHints = .ok (.obj msTenHints) ∧
    Json.lookup (.obj msTenHints) "hints" = some (.arr tenHintsList) ∧
    tenHintsList.length = 10 :=
  ⟨rfl, rfl, rfl⟩

/-- Claim C6 as amended: the hints value of a parseable object is passed
through verbatim — no non-string filtering, no trimming, no truncation to a
cap — and an absent hints field stays absent instead of defaulting to an
empty sequence (the handler never reads analysis['hints'] at all). -/
theorem hints_passed_through_verbatim (raw : String)
    (ms : List (String × Json))
    (hp : jsonLoads raw = some (.obj ms))
    (hv : (lookupJson ms "verdict").isSome = true)
    (hc : (lookupJson ms "confidence").isSome = true) :
    ∃ out, analyzeNormalize raw = .ok out ∧
      Json.lookup out "hints" = lookupJson ms "hints" :=
  ⟨.obj ms, analyzeNormalize_obj_ok raw ms hp hv hc, rfl⟩

/-- Claim C6 witness: the pass-through applied at the ten-hint input. -/
theorem hints_passed_through_verbatim_witness :
    ∃ out, analyzeNormalize rawTenHints = .ok out ∧
      Json.lookup out "hints" = lookupJson msTenHints "hints" :=
  hints_passed_through_verbatim rawTenHints msTenHints rfl rfl rfl

/-- Claim C7: the presign handler rejects every declared content type that
does not start with "image/" via the 400 client error (the spec's
UnsupportedMediaType), and accepts every content type that does, returning
the presigned url, the generated key and the bucket. -/
theorem presign_rejects_non_image_accepts_image (uuidStr bucketName : String)
    (presign : String → String → String → String) (req : PresignRequest) :
    (strBeginsWith req.fileType "image/" = false →
      generatePresignedUrl uuidStr bucketName presign req =
        .clientError 400 "Invalid file type") ∧
    (strBeginsWith req.fileType "image/" = true →
      generatePresignedUrl uuidStr bucketName presign req =
        .ok (presign bucketName ("uploads/" ++ uuidStr ++ "-" ++ req.fileName)
              req.fileType)
          ("uploads/" ++ uuidStr ++ "-" ++ req.fileName) bucketName) := by
  constructor
  · intro h
    simp [generatePresignedUrl, h]
  · intro h
    simp [generatePresignedUrl, h]

/-- Claim C7 witness: fileType application/pdf is rejected with the 400
error and fileType image/png is accepted. -/
theorem presign_rejects_non_image_accepts_image_witness :
    generatePresignedUrl "uuid1" "claims-bucket" (fun _ _ _ => "upload-url")
        ⟨"doc.pdf", "application/pdf"⟩ =
      .clientError 400 "Invalid file type" ∧
    generatePresignedUrl "uuid1" "claims-bucket" (fun _ _ _ => "upload-url")
        ⟨"photo.png", "image/png"⟩ =
      .ok "upload-url" "uploads/uuid1-photo.png" "claims-bucket" :=
  ⟨(presign_rejects_non_image_accepts_image "uuid1" "claims-bucket"
      (fun _ _ _ => "upload-url") ⟨"doc.pdf", "application/pdf"⟩).1 rfl,
   (presign_rejects_non_image_accepts_image "uuid1" "claims-bucket"
      (fun _ _ _ => "upload-url") ⟨"photo.png", "image/png"⟩).2 rfl⟩

/-- Claim C8: normalization is deterministic — the transformation from raw
model text to response (or failure) is a pure function of the raw text, so
applying it twice to the same string yields bit-identical results. -/
theorem analyze_normalization_deterministic (raw : String) :
    analyzeNormalize raw = analyzeNormalize raw :=
  rfl

/-- Claim C9, counterexample: invoking handleUpload with no file selected
does not leave isUploading at its prior value: the finally clause sets it
to false even though the try block returned early. -/
theorem no_file_still_clears_isUploading :
    (handleUpload ⟨none, true, none, "previous upload failed"⟩).isUploading
      = false ∧
    (AppState.mk none true none "previous upload failed").isUploading = true :=
  ⟨rfl, rfl⟩

/-- Claim C9 as amended: with no file selected, handleUpload performs no
analysis and leaves file, result and error unchanged, but the finally
clause still runs setUploading(false), so isUploading ends up false
regardless of its prior value. -/
theorem no_file_upload_only_resets_isUploading (s : AppState)
    (h : s.file = none) :
    handleUpload s = { s with isUploading := false } := by
  unfold handleUpload
  rw [h]

/-- Claim C9 witness: the amended theorem applied at a concrete state with
a stale result and error message. -/
theorem no_file_upload_only_resets_isUploading_witness :
    handleUpload ⟨none, true, some mockAnalyzeResult, "boom"⟩ =
      ⟨none, false, some mockAnalyzeResult, "boom"⟩ :=
  no_file_upload_only_resets_isUploading
    ⟨none, true, some mockAnalyzeResult, "boom"⟩ rfl

/-- Claim C10: the mocked analysis is a constant — every upload with a file
selected stores the same record — and that record has a summary string and
exactly three hints but no verdict and no confidence field, so it never
conforms to the Verdict contract. -/
theorem mock_analysis_constant_and_nonconforming :
    (∀ s : AppState, s.file.isSome = true →
      (handleUpload s).result = some mockAnalyzeResult) ∧
    Json.lookup mockAnalyzeResult "verdict" = none ∧
    Json.lookup mockAnalyzeResult "confidence" = none ∧
    Json.lookup mockAnalyzeResult "summary" =
      some (.str "No anomalies detected (mock).") ∧
    (∃ hs, Json.lookup mockAnalyzeResult "hints" = some (.arr hs) ∧
      hs.length = 3) ∧
    verdictRecordOk mockAnalyzeResult = false := by
  refine ⟨?_, rfl, rfl, rfl, ⟨_, rfl, rfl⟩, rfl⟩
  intro s h
  cases hf : s.file with
  | none => rw [hf] at h; simp at h
  | some f => simp [handleUpload, hf]

/-- Claim C10 witness: the constancy part applied at a concrete state with
a selected file. -/
theorem mock_analysis_constant_and_nonconforming_witness :
    (handleUpload ⟨some "car.png", false, none, ""⟩).result =
      some mockAnalyzeResult :=
  mock_analysis_constant_and_nonconforming.1
    ⟨some "car.png", false, none, ""⟩ rfl

end ClaimsLabeler
